import Mathlib

/-!
Shallow embedding of `src/store/models.py` (Django model layer of
sadeghsk1379/djangopractice1) and proofs about the schema-level contract it
declares.

Each Django model class becomes a row structure; the database is a record of
association lists `(primary key, row)`, one per table.  The implicit
create/update/delete contract of the persistence layer becomes explicit
Lean functions:

* `CharField(max_length=n)` — a `String` field, inserts/updates reject values
  longer than `n`;
* `EmailField()` — a `String` field whose inserts/updates reject values not
  accepted by `isValidEmail` (a model of Django's `EmailValidator`);
* `DecimalField(max_digits=4, decimal_places=2)` — a fixed-point value held
  as an integer count of hundredths (`Int`), valid when `|value| ≤ 9999`
  hundredths, i.e. at most four significant digits with two decimal places
  (the sign never counts toward `max_digits`);
* `ForeignKey(..., on_delete=CASCADE)` — a `Nat` key field; inserts/updates
  reject keys that do not resolve, and deleting a referenced row deletes the
  referencing rows.  `Category.parent = ForeignKey("self", ...)` has no
  `null=True`, so a missing parent is rejected;
* `auto_now_add` — the field is set to the current clock at insert and left
  alone by updates; `auto_now` — the field is rewritten to the current clock
  by inserts and updates.

Time is an abstract tick (`Nat`) passed to each operation.
-/

/-- `Category`: `name = CharField(max_length=255, db_index=True)`,
`parent = ForeignKey("self", on_delete=CASCADE)` (required: no `null=True`). -/
structure CategoryRow where
  name : String
  parent : Nat
  deriving Repr, DecidableEq

/-- `Product`: category/created_by foreign keys, `title`, `author`
(default "admin"), `description` (`blank=True`), `image` path,
`price` as hundredths, `in_stock`/`is_active` (default true),
`created` (`auto_now_add`), `updated` (`auto_now`). -/
structure ProductRow where
  category : Nat
  created_by : Nat
  title : String
  author : String
  description : String
  image : String
  price : Int
  in_stock : Bool
  is_active : Bool
  created : Nat
  updated : Nat
  deriving Repr, DecidableEq

/-- `Order`: `customer_name`, `customer_email = EmailField()`,
`order_date` (`auto_now_add`), `shipping_address = ForeignKey("ShippingAddress",
on_delete=CASCADE)`. -/
structure OrderRow where
  customer_name : String
  customer_email : String
  order_date : Nat
  shipping_address : Nat
  deriving Repr, DecidableEq

/-- `ShippingAddress`: `name`, `address` (`TextField`), `city`. -/
structure ShippingAddressRow where
  name : String
  address : String
  city : String
  deriving Repr, DecidableEq

/-- `Seller`: `name`, `email`, `phone_number` (max length 20),
`is_active` (default true). -/
structure SellerRow where
  name : String
  email : String
  phone_number : String
  is_active : Bool
  deriving Repr, DecidableEq

/-- `SellerProduct`: join entity, `seller` and `product` foreign keys, both
`on_delete=CASCADE`. -/
structure SellerProductRow where
  seller : Nat
  product : Nat
  deriving Repr, DecidableEq

/-- The relational store: one association list `(primary key, row)` per model,
plus the externally owned `auth.User` table (only its keys matter here) and a
primary-key allocator. -/
structure DB where
  users : List Nat
  categories : List (Nat × CategoryRow)
  products : List (Nat × ProductRow)
  orders : List (Nat × OrderRow)
  shippingAddresses : List (Nat × ShippingAddressRow)
  sellers : List (Nat × SellerRow)
  sellerProducts : List (Nat × SellerProductRow)
  nextId : Nat
  deriving Repr, DecidableEq

def DB.empty : DB :=
  { users := [], categories := [], products := [], orders := [],
    shippingAddresses := [], sellers := [], sellerProducts := [], nextId := 1 }

/-- Constraint violations surfaced by the persistence layer. -/
inductive DbError where
  | nullParent
  | missingFK
  | tooLong
  | invalidEmail
  | priceOutOfRange
  | notFound
  deriving Repr, DecidableEq

/-- Split a character list at every occurrence of `c` (the separators are
dropped; `n` separators yield `n + 1` pieces). -/
def splitOnChar (c : Char) : List Char → List (List Char)
  | [] => [[]]
  | x :: xs =>
      match splitOnChar c xs, decide (x = c) with
      | r, true => [] :: r
      | [], false => [[x]]
      | y :: ys, false => (x :: y) :: ys

/-- Model of Django's `EmailValidator`: one `@`, a nonempty local part, and a
domain that is either the whitelisted `localhost` or dot-separated nonempty
labels of alphanumerics and hyphens with at least one dot. -/
def isValidEmail (s : String) : Bool :=
  match splitOnChar '@' s.data with
  | [l, d] =>
      !l.isEmpty &&
        (d = "localhost".data ||
          (d.any (fun c => c = '.') &&
            (splitOnChar '.' d).all
              (fun p => !p.isEmpty && p.all (fun c => c.isAlphanum || c = '-'))))
  | _ => false

/-- `DecimalField(max_digits=4, decimal_places=2)`: the value, in hundredths,
has at most four significant digits — the sign does not count. -/
def priceValid (p : Int) : Bool :=
  p.natAbs ≤ 9999

def catIds (s : DB) : List Nat := s.categories.map Prod.fst

def prodIds (s : DB) : List Nat := s.products.map Prod.fst

def addrIds (s : DB) : List Nat := s.shippingAddresses.map Prod.fst

def sellerIds (s : DB) : List Nat := s.sellers.map Prod.fst

/-- Insert a `Category`.  `parent` is required (`NOT NULL`); when present it
must resolve, either to an existing category or to the freshly assigned key
(the row may be its own parent). -/
def insertCategory (name : String) (parent : Option Nat) (s : DB) :
    Except DbError DB :=
  match parent with
  | none => .error .nullParent
  | some p =>
      if name.length > 255 then .error .tooLong
      else if p ∈ s.nextId :: catIds s then
        .ok { s with
              categories := s.categories ++ [(s.nextId, ⟨name, p⟩)],
              nextId := s.nextId + 1 }
      else .error .missingFK

/-- Caller-supplied fields of a `Product` insert; `author`, `description`,
`in_stock` and `is_active` may be omitted, in which case the declared
defaults apply. -/
structure ProductInput where
  category : Nat
  created_by : Nat
  title : String
  author : Option String
  description : Option String
  image : String
  price : Int
  in_stock : Option Bool
  is_active : Option Bool
  deriving Repr, DecidableEq

/-- The row a `Product` insert stores at tick `now`: defaults applied
(`author = "admin"`, `description = ""`, `in_stock = is_active = true`),
`created` and `updated` both set to `now`. -/
def mkProductRow (now : Nat) (inp : ProductInput) : ProductRow :=
  { category := inp.category
    created_by := inp.created_by
    title := inp.title
    author := inp.author.getD "admin"
    description := inp.description.getD ""
    image := inp.image
    price := inp.price
    in_stock := inp.in_stock.getD true
    is_active := inp.is_active.getD true
    created := now
    updated := now }

/-- Insert a `Product` at tick `now`: price digits, text lengths and both
foreign keys are checked, then the defaulted row is stored. -/
def insertProduct (now : Nat) (inp : ProductInput) (s : DB) :
    Except DbError DB :=
  if !priceValid inp.price then .error .priceOutOfRange
  else if inp.title.length > 255 || (inp.author.getD "admin").length > 255 ||
      inp.image.length > 100 then .error .tooLong
  else if inp.category ∈ catIds s ∧ inp.created_by ∈ s.users then
    .ok { s with
          products := s.products ++ [(s.nextId, mkProductRow now inp)],
          nextId := s.nextId + 1 }
  else .error .missingFK

/-- Mutable fields of a `Product` update (the auto-timestamps are not
caller-settable). -/
structure ProductUpdate where
  category : Nat
  created_by : Nat
  title : String
  author : String
  description : String
  image : String
  price : Int
  in_stock : Bool
  is_active : Bool
  deriving Repr, DecidableEq

/-- The row stored by an update at tick `now`: every declared field is
overwritten except `created` (`auto_now_add`), and `updated` (`auto_now`) is
rewritten to `now`. -/
def applyProductUpdate (now : Nat) (u : ProductUpdate) (old : ProductRow) :
    ProductRow :=
  { category := u.category
    created_by := u.created_by
    title := u.title
    author := u.author
    description := u.description
    image := u.image
    price := u.price
    in_stock := u.in_stock
    is_active := u.is_active
    created := old.created
    updated := now }

/-- Update the `Product` with key `pid` at tick `now`, re-checking every
declared constraint. -/
def updateProduct (now : Nat) (pid : Nat) (u : ProductUpdate) (s : DB) :
    Except DbError DB :=
  if !priceValid u.price then .error .priceOutOfRange
  else if u.title.length > 255 || u.author.length > 255 ||
      u.image.length > 100 then .error .tooLong
  else if ¬ (u.category ∈ catIds s ∧ u.created_by ∈ s.users) then
    .error .missingFK
  else if pid ∈ prodIds s then
    .ok { s with
          products := s.products.map
            (fun kv => if kv.1 = pid then (pid, applyProductUpdate now u kv.2)
                       else kv) }
  else .error .notFound

/-- Caller-supplied fields of an `Order` insert (`order_date` is
`auto_now_add`, never caller-settable). -/
structure OrderInput where
  customer_name : String
  customer_email : String
  shipping_address : Nat
  deriving Repr, DecidableEq

/-- Insert an `Order` at tick `now`: the email must be syntactically valid,
`customer_name` fits 255 and the email 254 characters, the shipping-address
key must resolve; `order_date` is set to `now`. -/
def insertOrder (now : Nat) (inp : OrderInput) (s : DB) : Except DbError DB :=
  if !isValidEmail inp.customer_email then .error .invalidEmail
  else if inp.customer_name.length > 255 || inp.customer_email.length > 254 then
    .error .tooLong
  else if inp.shipping_address ∈ addrIds s then
    .ok { s with
          orders := s.orders ++
            [(s.nextId,
              ⟨inp.customer_name, inp.customer_email, now,
               inp.shipping_address⟩)],
          nextId := s.nextId + 1 }
  else .error .missingFK

/-- Update the `Order` with key `oid` at tick `now`: same field checks as the
insert; `order_date` is `auto_now_add` only, so the stored value is kept. -/
def updateOrder (_now : Nat) (oid : Nat) (inp : OrderInput) (s : DB) :
    Except DbError DB :=
  if !isValidEmail inp.customer_email then .error .invalidEmail
  else if inp.customer_name.length > 255 || inp.customer_email.length > 254 then
    .error .tooLong
  else if ¬ inp.shipping_address ∈ addrIds s then .error .missingFK
  else if oid ∈ s.orders.map Prod.fst then
    .ok { s with
          orders := s.orders.map
            (fun kv => if kv.1 = oid then
                (oid, ⟨inp.customer_name, inp.customer_email,
                       kv.2.order_date, inp.shipping_address⟩)
              else kv) }
  else .error .notFound

/-- Insert a `ShippingAddress`. -/
def insertShippingAddress (r : ShippingAddressRow) (s : DB) :
    Except DbError DB :=
  if r.name.length > 255 || r.city.length > 255 then .error .tooLong
  else
    .ok { s with
          shippingAddresses := s.shippingAddresses ++ [(s.nextId, r)],
          nextId := s.nextId + 1 }

/-- Insert a `Seller` (defaulting `is_active` to true when omitted). -/
def insertSeller (name email phone : String) (isActive : Option Bool)
    (s : DB) : Except DbError DB :=
  if !isValidEmail email then .error .invalidEmail
  else if name.length > 255 || email.length > 254 || phone.length > 20 then
    .error .tooLong
  else
    .ok { s with
          sellers := s.sellers ++
            [(s.nextId, ⟨name, email, phone, isActive.getD true⟩)],
          nextId := s.nextId + 1 }

/-- Insert a `SellerProduct` join row; both foreign keys must resolve. -/
def insertSellerProduct (seller product : Nat) (s : DB) : Except DbError DB :=
  if seller ∈ sellerIds s ∧ product ∈ prodIds s then
    .ok { s with
          sellerProducts := s.sellerProducts ++ [(s.nextId, ⟨seller, product⟩)],
          nextId := s.nextId + 1 }
  else .error .missingFK

/-- One round of cascade growth over the category self-reference: the keys of
all categories whose `parent` is already condemned. -/
def childIdsOf (cats : List (Nat × CategoryRow)) (condemned : List Nat) :
    List Nat :=
  (cats.filter (fun kv => decide (kv.2.parent ∈ condemned))).map Prod.fst

def cascadeStep (cats : List (Nat × CategoryRow)) (condemned : List Nat) :
    List Nat :=
  condemned ++ childIdsOf cats condemned

/-- All category keys condemned by deleting `c`: `c` itself and, because
`Category.parent` is an `on_delete=CASCADE` self-reference, every key
reachable from it through `parent` links.  Iterating once per stored category
saturates every duplicate-free descent chain. -/
def cascadeSet (cats : List (Nat × CategoryRow)) (c : Nat) : List Nat :=
  (cascadeStep cats)^[cats.length] [c]

/-- Delete `Category` `c`: the condemned subtree of categories disappears,
every `Product` referencing a condemned category disappears
(`Product.category` is `on_delete=CASCADE`), and every `SellerProduct`
referencing such a product disappears in turn (`SellerProduct.product` is
`on_delete=CASCADE`). -/
def deleteCategory (c : Nat) (s : DB) : DB :=
  let condemned := cascadeSet s.categories c
  let deadProducts :=
    (s.products.filter (fun kv => decide (kv.2.category ∈ condemned))).map
      Prod.fst
  { s with
    categories := s.categories.filter (fun kv => !decide (kv.1 ∈ condemned))
    products :=
      s.products.filter (fun kv => !decide (kv.2.category ∈ condemned))
    sellerProducts :=
      s.sellerProducts.filter
        (fun kv => !decide (kv.2.product ∈ deadProducts)) }

/-- Delete `Product` `pid`: `SellerProduct.product` is `on_delete=CASCADE`,
so the join rows pointing at it go too. -/
def deleteProduct (pid : Nat) (s : DB) : DB :=
  { s with
    products := s.products.filter (fun kv => kv.1 ≠ pid)
    sellerProducts := s.sellerProducts.filter (fun kv => kv.2.product ≠ pid) }

/-- Delete `Seller` `sid`: `SellerProduct.seller` is `on_delete=CASCADE`. -/
def deleteSeller (sid : Nat) (s : DB) : DB :=
  { s with
    sellers := s.sellers.filter (fun kv => kv.1 ≠ sid)
    sellerProducts := s.sellerProducts.filter (fun kv => kv.2.seller ≠ sid) }

/-- Delete `ShippingAddress` `aid`: `Order.shipping_address` is
`on_delete=CASCADE`, so every order referencing it goes too. -/
def deleteShippingAddress (aid : Nat) (s : DB) : DB :=
  { s with
    shippingAddresses := s.shippingAddresses.filter (fun kv => kv.1 ≠ aid)
    orders := s.orders.filter (fun kv => kv.2.shipping_address ≠ aid) }

/-- Delete `Order` `oid`: nothing references orders, so only the order row
goes; in particular its shipping address stays. -/
def deleteOrder (oid : Nat) (s : DB) : DB :=
  { s with orders := s.orders.filter (fun kv => kv.1 ≠ oid) }

/-- Referential integrity of the `Product.category` column: every stored
product references a stored category. -/
def productFKOk (s : DB) : Bool :=
  s.products.all (fun kv => decide (kv.2.category ∈ catIds s))

/-- A descent chain below `root` in the category forest: each listed key is a
stored category whose `parent` is the previous element (starting from
`root`). -/
def chainOk (cats : List (Nat × CategoryRow)) : Nat → List Nat → Bool
  | _, [] => true
  | root, c :: rest =>
      cats.any (fun kv => kv.1 == c && kv.2.parent == root) &&
        chainOk cats c rest

/-! ### Cascade-closure lemmas for the category subtree -/

lemma mem_childIdsOf {cats : List (Nat × CategoryRow)} {S : List Nat}
    {x : Nat} :
    x ∈ childIdsOf cats S ↔ ∃ row, (x, row) ∈ cats ∧ row.parent ∈ S := by
  simp only [childIdsOf, List.mem_map, List.mem_filter, decide_eq_true_eq]
  constructor
  · rintro ⟨⟨k, row⟩, ⟨hmem, hp⟩, rfl⟩
    exact ⟨row, hmem, hp⟩
  · rintro ⟨row, hmem, hp⟩
    exact ⟨(x, row), ⟨hmem, hp⟩, rfl⟩

lemma subset_cascadeStep (cats : List (Nat × CategoryRow)) (S : List Nat) :
    S ⊆ cascadeStep cats S :=
  fun _ hx => List.mem_append_left _ hx

lemma cascadeStep_mono {cats : List (Nat × CategoryRow)} {S T : List Nat}
    (h : S ⊆ T) : cascadeStep cats S ⊆ cascadeStep cats T := by
  intro x hx
  rcases List.mem_append.1 hx with h1 | h2
  · exact List.mem_append_left _ (h h1)
  · rcases mem_childIdsOf.1 h2 with ⟨row, hrow, hp⟩
    exact List.mem_append_right _ (mem_childIdsOf.2 ⟨row, hrow, h hp⟩)

lemma subset_iterate_cascadeStep (cats : List (Nat × CategoryRow)) :
    ∀ (k : Nat) (S : List Nat), S ⊆ (cascadeStep cats)^[k] S := by
  intro k
  induction k with
  | zero => intro S; simp
  | succ n ih =>
      intro S
      rw [Function.iterate_succ_apply]
      exact fun x hx => ih (cascadeStep cats S) (subset_cascadeStep cats S hx)

lemma iterate_cascadeStep_le {cats : List (Nat × CategoryRow)} {m n : Nat}
    (h : m ≤ n) (S : List Nat) :
    (cascadeStep cats)^[m] S ⊆ (cascadeStep cats)^[n] S := by
  obtain ⟨k, rfl⟩ := Nat.exists_eq_add_of_le h
  rw [Nat.add_comm, Function.iterate_add_apply]
  exact subset_iterate_cascadeStep cats k _

lemma mem_cascadeSet_self (cats : List (Nat × CategoryRow)) (c : Nat) :
    c ∈ cascadeSet cats c :=
  subset_iterate_cascadeStep cats cats.length [c] (List.mem_singleton.2 rfl)

lemma chain_subset_iterate {cats : List (Nat × CategoryRow)} :
    ∀ (chain : List Nat) (root : Nat) (S : List Nat), root ∈ S →
      chainOk cats root chain = true →
      ∀ d ∈ chain, d ∈ (cascadeStep cats)^[chain.length] S := by
  intro chain
  induction chain with
  | nil => intro root S _ _ d hd; cases hd
  | cons c rest ih =>
      intro root S hroot hch d hd
      rw [chainOk, Bool.and_eq_true] at hch
      obtain ⟨hc, hrest⟩ := hch
      rw [List.any_eq_true] at hc
      obtain ⟨kv, hkv, hkvok⟩ := hc
      rw [Bool.and_eq_true, beq_iff_eq, beq_iff_eq] at hkvok
      obtain ⟨hk1, hk2⟩ := hkvok
      have hcstep : c ∈ cascadeStep cats S := by
        refine List.mem_append_right _ (mem_childIdsOf.2 ⟨kv.2, ?_, ?_⟩)
        · rw [← hk1]; exact hkv
        · rw [hk2]; exact hroot
      rw [List.length_cons, Function.iterate_succ_apply]
      rcases List.mem_cons.1 hd with rfl | hdrest
      · exact subset_iterate_cascadeStep cats rest.length _ hcstep
      · exact ih c (cascadeStep cats S) hcstep hrest d hdrest

lemma chain_subset_ids {cats : List (Nat × CategoryRow)} :
    ∀ (chain : List Nat) (root : Nat), chainOk cats root chain = true →
      ∀ d ∈ chain, d ∈ cats.map Prod.fst := by
  intro chain
  induction chain with
  | nil => intro root _ d hd; cases hd
  | cons c rest ih =>
      intro root hch d hd
      rw [chainOk, Bool.and_eq_true] at hch
      obtain ⟨hc, hrest⟩ := hch
      rcases List.mem_cons.1 hd with rfl | hdrest
      · rw [List.any_eq_true] at hc
        obtain ⟨kv, hkv, hkvok⟩ := hc
        rw [Bool.and_eq_true, beq_iff_eq] at hkvok
        exact List.mem_map.2 ⟨kv, hkv, hkvok.1⟩
      · exact ih c hrest d hdrest

lemma mem_cascadeSet_of_chain {cats : List (Nat × CategoryRow)}
    {root : Nat} {chain : List Nat} (hnd : chain.Nodup)
    (hch : chainOk cats root chain = true) :
    ∀ d ∈ chain, d ∈ cascadeSet cats root := by
  intro d hd
  have hsub : chain ⊆ cats.map Prod.fst := fun x hx =>
    chain_subset_ids chain root hch x hx
  have hlen : chain.length ≤ cats.length := by
    have := (List.subperm_of_subset hnd hsub).length_le
    simpa using this
  exact iterate_cascadeStep_le hlen [root]
    (chain_subset_iterate chain root [root] (List.mem_singleton.2 rfl) hch d hd)

/-! ### Sample data for concrete witnesses -/

/-- A small populated store: a three-level category chain `1 ← 2 ← 3`
(category 1 is its own parent, as the required self-reference permits), one
product in the leaf category, one order, one shipping address, one seller and
one join row. -/
def sampleDB : DB :=
  { users := [7]
    categories := [(1, ⟨"root", 1⟩), (2, ⟨"child", 1⟩), (3, ⟨"grand", 2⟩)]
    products := [(10, ⟨3, 7, "t", "a", "", "i", 500, true, true, 0, 0⟩)]
    orders := [(20, ⟨"cust", "c@ex.com", 0, 30⟩)]
    shippingAddresses := [(30, ⟨"n", "a", "c"⟩)]
    sellers := [(40, ⟨"s", "s@ex.com", "123", true⟩)]
    sellerProducts := [(50, ⟨40, 10⟩)]
    nextId := 60 }

def sampleProductInput : ProductInput := ⟨3, 7, "x", none, none, "p", 500, none, none⟩

def negPriceInput : ProductInput := ⟨3, 7, "x", none, none, "p", -100, none, none⟩

def sampleProductUpdate : ProductUpdate := ⟨3, 7, "t2", "a2", "d", "i2", 600, false, true⟩

def sampleOrderInput : OrderInput := ⟨"dave", "d@ex.com", 30⟩

def badEmailOrderInput : OrderInput := ⟨"z", "plainaddress", 30⟩

/-! ### C3 -/

/-- C3: creating a `Category` without supplying a `parent` fails with an
integrity error — `Category.parent` is a `ForeignKey("self", on_delete=CASCADE)`
with no `null=True`, hence `NOT NULL`. -/
theorem category_requires_parent (name : String) (s : DB) :
    insertCategory name none s = Except.error DbError.nullParent :=
  rfl

/-! ### C8 -/

/-- C8: an `Order` insert or update whose `customer_email` is not a
syntactically valid email address is rejected with a validation error —
`customer_email = EmailField()` carries Django's email validator. -/
theorem order_rejects_invalid_email (now oid : Nat) (inp : OrderInput)
    (s : DB) (h : isValidEmail inp.customer_email = false) :
    insertOrder now inp s = Except.error DbError.invalidEmail ∧
    updateOrder now oid inp s = Except.error DbError.invalidEmail := by
  constructor
  · unfold insertOrder; rw [h]; rfl
  · unfold updateOrder; rw [h]; rfl

/-- Witness for C8 at a concrete malformed address. -/
theorem order_rejects_invalid_email_witness :
    isValidEmail "plainaddress" = false ∧
    (insertOrder 0 badEmailOrderInput sampleDB
        = Except.error DbError.invalidEmail ∧
      updateOrder 0 20 badEmailOrderInput sampleDB
        = Except.error DbError.invalidEmail) :=
  ⟨by decide, order_rejects_invalid_email 0 20 badEmailOrderInput sampleDB
    (by decide)⟩

/-! ### C7 -/

/-- C7: a `Product` insert that omits `author` stores `"admin"`, and one that
omits `in_stock` or `is_active` stores `true` for both — the declared field
defaults. -/
theorem product_insert_defaults (now : Nat) (inp : ProductInput) (s s2 : DB)
    (ha : inp.author = none) (hst : inp.in_stock = none)
    (hac : inp.is_active = none)
    (hok : insertProduct now inp s = Except.ok s2) :
    (s.nextId, mkProductRow now inp) ∈ s2.products ∧
    (mkProductRow now inp).author = "admin" ∧
    (mkProductRow now inp).in_stock = true ∧
    (mkProductRow now inp).is_active = true := by
  refine ⟨?_, by simp [mkProductRow, ha], by simp [mkProductRow, hst],
    by simp [mkProductRow, hac]⟩
  unfold insertProduct at hok
  split at hok
  · exact absurd hok (by simp)
  · split at hok
    · exact absurd hok (by simp)
    · split at hok
      · cases hok
        simp
      · exact absurd hok (by simp)

/-- Witness for C7: inserting `sampleProductInput` (no `author`, `in_stock`,
`is_active`) into `sampleDB`. -/
theorem product_insert_defaults_witness :
    (60, mkProductRow 5 sampleProductInput) ∈
      ({ sampleDB with
         products := sampleDB.products ++
           [(60, mkProductRow 5 sampleProductInput)],
         nextId := 61 } : DB).products ∧
    (mkProductRow 5 sampleProductInput).author = "admin" ∧
    (mkProductRow 5 sampleProductInput).in_stock = true ∧
    (mkProductRow 5 sampleProductInput).is_active = true :=
  product_insert_defaults 5 sampleProductInput sampleDB
    { sampleDB with
      products := sampleDB.products ++
        [(60, mkProductRow 5 sampleProductInput)],
      nextId := 61 }
    rfl rfl rfl rfl

/-! ### C1 -/

/-- C1 counterexample: `-1.00` (i.e. `-100` hundredths) lies outside the
claimed range `[0.00, 99.99]`, yet `max_digits=4, decimal_places=2` accepts it
— the sign does not count toward the digits — so the insert succeeds and
stores the negative price instead of rejecting it. -/
theorem price_outside_claimed_range_accepted :
    priceValid (-100) = true ∧
    ¬ ((0 : Int) ≤ -100) ∧
    insertProduct 5 negPriceInput sampleDB = Except.ok
      { sampleDB with
        products := sampleDB.products ++ [(60, mkProductRow 5 negPriceInput)],
        nextId := 61 } ∧
    (mkProductRow 5 negPriceInput).price = -100 :=
  ⟨by decide, by decide, rfl, rfl⟩

/-- C1 (amended): a `price` is accepted exactly when it lies in
`[-99.99, 99.99]` (at most four significant digits, two of them decimal; the
sign is free), an accepted price round-trips through storage unchanged
through both insert and update, and a price outside that range is rejected
at insert and at update time with `DbError.priceOutOfRange`. -/
theorem price_decimal_contract (now pid : Nat) (inp : ProductInput)
    (u : ProductUpdate) (row : ProductRow) (s : DB) :
    (priceValid inp.price = true ↔ -9999 ≤ inp.price ∧ inp.price ≤ 9999) ∧
    (priceValid inp.price = false →
      insertProduct now inp s = Except.error DbError.priceOutOfRange) ∧
    (priceValid u.price = false →
      updateProduct now pid u s = Except.error DbError.priceOutOfRange) ∧
    ((applyProductUpdate now u row).price = u.price) ∧
    (priceValid inp.price = true →
      inp.title.length ≤ 255 → (inp.author.getD "admin").length ≤ 255 →
      inp.image.length ≤ 100 → inp.category ∈ catIds s →
      inp.created_by ∈ s.users →
      ∃ s2, insertProduct now inp s = Except.ok s2 ∧
        (s.nextId, mkProductRow now inp) ∈ s2.products ∧
        (mkProductRow now inp).price = inp.price) := by
  refine ⟨?_, ?_, ?_, rfl, ?_⟩
  · unfold priceValid
    rw [decide_eq_true_eq]
    omega
  · intro h
    unfold insertProduct
    rw [h]
    rfl
  · intro h
    unfold updateProduct
    rw [h]
    rfl
  · intro hp hT hA hI hc hu
    have t1 : decide (inp.title.length > 255) = false :=
      decide_eq_false (Nat.not_lt.2 hT)
    have t2 : decide ((inp.author.getD "admin").length > 255) = false :=
      decide_eq_false (Nat.not_lt.2 hA)
    have t3 : decide (inp.image.length > 100) = false :=
      decide_eq_false (Nat.not_lt.2 hI)
    refine ⟨{ s with
              products := s.products ++ [(s.nextId, mkProductRow now inp)],
              nextId := s.nextId + 1 }, ?_, by simp, rfl⟩
    unfold insertProduct
    rw [hp, Bool.not_true, t1, t2, t3]
    simp only [Bool.or_false, Bool.false_eq_true, if_false]
    rw [if_pos ⟨hc, hu⟩]

/-- Witness for the amended C1: inserting a product priced `5.00` into
`sampleDB` succeeds and stores the price unchanged. -/
theorem price_decimal_contract_witness :
    priceValid 500 = true ∧
    ∃ s2, insertProduct 5 sampleProductInput sampleDB = Except.ok s2 ∧
      (60, mkProductRow 5 sampleProductInput) ∈ s2.products ∧
      (mkProductRow 5 sampleProductInput).price = 500 :=
  ⟨by decide,
    (price_decimal_contract 5 10 sampleProductInput sampleProductUpdate
        ⟨3, 7, "t", "a", "", "i", 500, true, true, 0, 0⟩ sampleDB).2.2.2.2
      (by decide) (by decide) (by decide) (by decide) (by decide) (by decide)⟩

/-! ### C2 -/

/-- C2 counterexample: `Order.shipping_address` is a plain `ForeignKey` (not
`OneToOneField`) with no uniqueness constraint, so starting from the empty
store one shipping address and then two orders referencing it all insert
successfully — two distinct persisted orders (keys 2 and 3) share shipping
address 1, refuting the claimed one-to-one invariant. -/
theorem order_shipping_address_shared :
    ∃ s1 s2 s3 : DB,
      insertShippingAddress ⟨"n", "a", "c"⟩ DB.empty = Except.ok s1 ∧
      insertOrder 0 ⟨"alice", "a@b.com", 1⟩ s1 = Except.ok s2 ∧
      insertOrder 1 ⟨"bob", "b@b.com", 1⟩ s2 = Except.ok s3 ∧
      ∃ o1 o2 : OrderRow, (2, o1) ∈ s3.orders ∧ (3, o2) ∈ s3.orders ∧
        (2 : Nat) ≠ 3 ∧ o1.shipping_address = o2.shipping_address := by
  refine ⟨_, _, _, rfl, rfl, rfl,
    ⟨"alice", "a@b.com", 0, 1⟩, ⟨"bob", "b@b.com", 1, 1⟩, ?_, ?_, by decide,
    rfl⟩
  · decide
  · decide

/-- C2 (amended): every `Order` references exactly one `ShippingAddress`
through its single `shipping_address` key, but the relationship is
many-to-one, not one-to-one — inserting an order whose address is already
referenced by an existing order succeeds, leaving both orders sharing it. -/
theorem order_shipping_many_to_one (now oid : Nat) (inp : OrderInput)
    (o : OrderRow) (s : DB)
    (hmem : (oid, o) ∈ s.orders)
    (hsame : o.shipping_address = inp.shipping_address)
    (hemail : isValidEmail inp.customer_email = true)
    (hname : inp.customer_name.length ≤ 255)
    (hel : inp.customer_email.length ≤ 254)
    (hfk : inp.shipping_address ∈ addrIds s) :
    ∃ s2, insertOrder now inp s = Except.ok s2 ∧
      (oid, o) ∈ s2.orders ∧
      (s.nextId,
        (⟨inp.customer_name, inp.customer_email, now,
          inp.shipping_address⟩ : OrderRow)) ∈ s2.orders ∧
      o.shipping_address =
        (⟨inp.customer_name, inp.customer_email, now,
          inp.shipping_address⟩ : OrderRow).shipping_address := by
  have t1 : decide (inp.customer_name.length > 255) = false :=
    decide_eq_false (Nat.not_lt.2 hname)
  have t2 : decide (inp.customer_email.length > 254) = false :=
    decide_eq_false (Nat.not_lt.2 hel)
  refine ⟨{ s with
            orders := s.orders ++
              [(s.nextId,
                ⟨inp.customer_name, inp.customer_email, now,
                 inp.shipping_address⟩)],
            nextId := s.nextId + 1 }, ?_, ?_, ?_, hsame⟩
  · unfold insertOrder
    rw [hemail, Bool.not_true, t1, t2]
    simp only [Bool.or_false, Bool.false_eq_true, if_false]
    rw [if_pos hfk]
  · exact List.mem_append_left _ hmem
  · simp

/-- Witness for the amended C2: a second order on `sampleDB`'s address 30. -/
theorem order_shipping_many_to_one_witness :
    ∃ s2, insertOrder 9 sampleOrderInput sampleDB = Except.ok s2 ∧
      (20, (⟨"cust", "c@ex.com", 0, 30⟩ : OrderRow)) ∈ s2.orders ∧
      (60, (⟨"dave", "d@ex.com", 9, 30⟩ : OrderRow)) ∈ s2.orders ∧
      (⟨"cust", "c@ex.com", 0, 30⟩ : OrderRow).shipping_address =
        (⟨"dave", "d@ex.com", 9, 30⟩ : OrderRow).shipping_address :=
  order_shipping_many_to_one 9 20 sampleOrderInput ⟨"cust", "c@ex.com", 0, 30⟩
    sampleDB (by decide) rfl (by decide) (by decide) (by decide) (by decide)

/-! ### C5 -/

/-- C5: deleting a `ShippingAddress` deletes exactly the orders referencing
it (`Order.shipping_address` is `on_delete=CASCADE`), while deleting an
`Order` leaves the shipping addresses untouched — the dependency direction is
Order → ShippingAddress. -/
theorem shipping_address_delete_cascades (aid oid : Nat) (s : DB) :
    (∀ kv ∈ s.orders, kv.2.shipping_address = aid →
      kv ∉ (deleteShippingAddress aid s).orders) ∧
    (∀ kv ∈ (deleteShippingAddress aid s).orders,
      kv ∈ s.orders ∧ kv.2.shipping_address ≠ aid) ∧
    (deleteShippingAddress aid s).shippingAddresses =
      s.shippingAddresses.filter (fun kv => kv.1 ≠ aid) ∧
    (deleteOrder oid s).shippingAddresses = s.shippingAddresses := by
  refine ⟨?_, ?_, rfl, rfl⟩
  · intro kv _ h hmem
    have h2 := (List.mem_filter.1 hmem).2
    simp only [decide_eq_true_eq] at h2
    exact h2 h
  · intro kv hkv
    have h1 := List.mem_filter.1 hkv
    refine ⟨h1.1, ?_⟩
    simpa using h1.2

/-- Witness for C5 on `sampleDB` (address 30, order 20). -/
theorem shipping_address_delete_cascades_witness :
    (∀ kv ∈ sampleDB.orders, kv.2.shipping_address = 30 →
      kv ∉ (deleteShippingAddress 30 sampleDB).orders) ∧
    (∀ kv ∈ (deleteShippingAddress 30 sampleDB).orders,
      kv ∈ sampleDB.orders ∧ kv.2.shipping_address ≠ 30) ∧
    (deleteShippingAddress 30 sampleDB).shippingAddresses =
      sampleDB.shippingAddresses.filter (fun kv => kv.1 ≠ 30) ∧
    (deleteOrder 20 sampleDB).shippingAddresses =
      sampleDB.shippingAddresses :=
  shipping_address_delete_cascades 30 20 sampleDB

/-! ### C6 -/

/-- C6: deleting a `Seller` deletes exactly the `SellerProduct` rows whose
`seller` references it, and deleting a `Product` deletes exactly the
`SellerProduct` rows whose `product` references it — both join-entity foreign
keys are `on_delete=CASCADE`. -/
theorem seller_product_join_delete_cascades (sid pid : Nat) (s : DB) :
    (∀ kv ∈ s.sellerProducts, kv.2.seller = sid →
      kv ∉ (deleteSeller sid s).sellerProducts) ∧
    (∀ kv ∈ (deleteSeller sid s).sellerProducts,
      kv ∈ s.sellerProducts ∧ kv.2.seller ≠ sid) ∧
    (∀ kv ∈ s.sellerProducts, kv.2.product = pid →
      kv ∉ (deleteProduct pid s).sellerProducts) ∧
    (∀ kv ∈ (deleteProduct pid s).sellerProducts,
      kv ∈ s.sellerProducts ∧ kv.2.product ≠ pid) := by
  refine ⟨?_, ?_, ?_, ?_⟩
  · intro kv _ h hmem
    have h2 := (List.mem_filter.1 hmem).2
    simp only [decide_eq_true_eq] at h2
    exact h2 h
  · intro kv hkv
    have h1 := List.mem_filter.1 hkv
    refine ⟨h1.1, ?_⟩
    simpa using h1.2
  · intro kv _ h hmem
    have h2 := (List.mem_filter.1 hmem).2
    simp only [decide_eq_true_eq] at h2
    exact h2 h
  · intro kv hkv
    have h1 := List.mem_filter.1 hkv
    refine ⟨h1.1, ?_⟩
    simpa using h1.2

/-- Witness for C6 on `sampleDB` (seller 40, product 10). -/
theorem seller_product_join_delete_cascades_witness :
    (∀ kv ∈ sampleDB.sellerProducts, kv.2.seller = 40 →
      kv ∉ (deleteSeller 40 sampleDB).sellerProducts) ∧
    (∀ kv ∈ (deleteSeller 40 sampleDB).sellerProducts,
      kv ∈ sampleDB.sellerProducts ∧ kv.2.seller ≠ 40) ∧
    (∀ kv ∈ sampleDB.sellerProducts, kv.2.product = 10 →
      kv ∉ (deleteProduct 10 sampleDB).sellerProducts) ∧
    (∀ kv ∈ (deleteProduct 10 sampleDB).sellerProducts,
      kv ∈ sampleDB.sellerProducts ∧ kv.2.product ≠ 10) :=
  seller_product_join_delete_cascades 40 10 sampleDB

/-! ### C9 -/

/-- C9: `Product.created` (`auto_now_add`) and `Order.order_date`
(`auto_now_add`) are set to the clock exactly at insert and are left
unchanged by every update, while `Product.updated` (`auto_now`) is rewritten
to the clock on every insert and update. -/
theorem auto_timestamp_contract :
    (∀ (now : Nat) (inp : ProductInput) (s s2 : DB),
        insertProduct now inp s = Except.ok s2 →
        (s.nextId, mkProductRow now inp) ∈ s2.products ∧
        (mkProductRow now inp).created = now ∧
        (mkProductRow now inp).updated = now) ∧
    (∀ (now pid : Nat) (u : ProductUpdate) (s s2 : DB) (row : ProductRow),
        updateProduct now pid u s = Except.ok s2 →
        (pid, row) ∈ s.products →
        (pid, applyProductUpdate now u row) ∈ s2.products ∧
        (applyProductUpdate now u row).created = row.created ∧
        (applyProductUpdate now u row).updated = now) ∧
    (∀ (now : Nat) (inp : OrderInput) (s s2 : DB),
        insertOrder now inp s = Except.ok s2 →
        (s.nextId,
          (⟨inp.customer_name, inp.customer_email, now,
            inp.shipping_address⟩ : OrderRow)) ∈ s2.orders ∧
        (⟨inp.customer_name, inp.customer_email, now,
          inp.shipping_address⟩ : OrderRow).order_date = now) ∧
    (∀ (now oid : Nat) (inp : OrderInput) (s s2 : DB) (r : OrderRow),
        updateOrder now oid inp s = Except.ok s2 →
        (oid, r) ∈ s.orders →
        ∃ r2 : OrderRow, (oid, r2) ∈ s2.orders ∧
          r2.order_date = r.order_date) := by
  refine ⟨?_, ?_, ?_, ?_⟩
  · intro now inp s s2 hok
    unfold insertProduct at hok
    split at hok
    · exact absurd hok (by simp)
    · split at hok
      · exact absurd hok (by simp)
      · split at hok
        · cases hok
          exact ⟨by simp, rfl, rfl⟩
        · exact absurd hok (by simp)
  · intro now pid u s s2 row hok hmem
    unfold updateProduct at hok
    split at hok
    · exact absurd hok (by simp)
    · split at hok
      · exact absurd hok (by simp)
      · split at hok
        · exact absurd hok (by simp)
        · split at hok
          · cases hok
            refine ⟨?_, rfl, rfl⟩
            have h := List.mem_map_of_mem
              (f := fun kv : Nat × ProductRow =>
                if kv.1 = pid then (pid, applyProductUpdate now u kv.2)
                else kv) hmem
            simpa using h
          · exact absurd hok (by simp)
  · intro now inp s s2 hok
    unfold insertOrder at hok
    split at hok
    · exact absurd hok (by simp)
    · split at hok
      · exact absurd hok (by simp)
      · split at hok
        · cases hok
          exact ⟨by simp, rfl⟩
        · exact absurd hok (by simp)
  · intro now oid inp s s2 r hok hmem
    unfold updateOrder at hok
    split at hok
    · exact absurd hok (by simp)
    · split at hok
      · exact absurd hok (by simp)
      · split at hok
        · exact absurd hok (by simp)
        · split at hok
          · cases hok
            refine ⟨⟨inp.customer_name, inp.customer_email, r.order_date,
              inp.shipping_address⟩, ?_, rfl⟩
            have h := List.mem_map_of_mem
              (f := fun kv : Nat × OrderRow =>
                if kv.1 = oid then
                  (oid, ⟨inp.customer_name, inp.customer_email,
                    kv.2.order_date, inp.shipping_address⟩)
                else kv) hmem
            simpa using h
          · exact absurd hok (by simp)

/-- Witness for C9: a concrete insert and update of a product and of an order
on `sampleDB`. -/
theorem auto_timestamp_contract_witness :
    ((60, mkProductRow 5 sampleProductInput) ∈
        ({ sampleDB with
           products := sampleDB.products ++
             [(60, mkProductRow 5 sampleProductInput)],
           nextId := 61 } : DB).products ∧
      (mkProductRow 5 sampleProductInput).created = 5 ∧
      (mkProductRow 5 sampleProductInput).updated = 5) ∧
    ((10, applyProductUpdate 9 sampleProductUpdate
        ⟨3, 7, "t", "a", "", "i", 500, true, true, 0, 0⟩) ∈
        ({ sampleDB with
           products := [(10, applyProductUpdate 9 sampleProductUpdate
             ⟨3, 7, "t", "a", "", "i", 500, true, true, 0, 0⟩)] } : DB).products ∧
      (applyProductUpdate 9 sampleProductUpdate
        ⟨3, 7, "t", "a", "", "i", 500, true, true, 0, 0⟩).created = 0 ∧
      (applyProductUpdate 9 sampleProductUpdate
        ⟨3, 7, "t", "a", "", "i", 500, true, true, 0, 0⟩).updated = 9) ∧
    ((60, (⟨"dave", "d@ex.com", 5, 30⟩ : OrderRow)) ∈
        ({ sampleDB with
           orders := sampleDB.orders ++ [(60, ⟨"dave", "d@ex.com", 5, 30⟩)],
           nextId := 61 } : DB).orders ∧
      (⟨"dave", "d@ex.com", 5, 30⟩ : OrderRow).order_date = 5) ∧
    (∃ r2 : OrderRow,
      (20, r2) ∈
        ({ sampleDB with
           orders := [(20, ⟨"dave", "d@ex.com", 0, 30⟩)] } : DB).orders ∧
      r2.order_date = (⟨"cust", "c@ex.com", 0, 30⟩ : OrderRow).order_date) :=
  ⟨auto_timestamp_contract.1 5 sampleProductInput sampleDB _ rfl,
    auto_timestamp_contract.2.1 9 10 sampleProductUpdate sampleDB _
      ⟨3, 7, "t", "a", "", "i", 500, true, true, 0, 0⟩ rfl (by decide),
    auto_timestamp_contract.2.2.1 5 sampleOrderInput sampleDB _ rfl,
    auto_timestamp_contract.2.2.2 9 20 sampleOrderInput sampleDB _
      ⟨"cust", "c@ex.com", 0, 30⟩ rfl (by decide)⟩

/-! ### C4 -/

/-- C4: deleting a `Category` deletes every `Product` referencing it
(`Product.category` is `on_delete=CASCADE`), and no surviving product
dangles: each one still references neither the deleted category nor any
category removed by the cascade, and its category row is still stored. -/
theorem category_delete_cascades_to_products (c : Nat) (s : DB)
    (hfk : productFKOk s = true) :
    (∀ kv ∈ s.products, kv.2.category = c →
      kv ∉ (deleteCategory c s).products) ∧
    (∀ kv ∈ (deleteCategory c s).products,
      kv ∈ s.products ∧ kv.2.category ≠ c ∧
      kv.2.category ∈ catIds (deleteCategory c s)) := by
  have hcD : c ∈ cascadeSet s.categories c := mem_cascadeSet_self _ _
  constructor
  · intro kv hkv hcat hmem
    simp only [deleteCategory, List.mem_filter, Bool.not_eq_true',
      decide_eq_false_iff_not] at hmem
    exact hmem.2 (hcat ▸ hcD)
  · intro kv hmem
    simp only [deleteCategory, List.mem_filter, Bool.not_eq_true',
      decide_eq_false_iff_not] at hmem
    obtain ⟨hkv, hnot⟩ := hmem
    refine ⟨hkv, fun hc => hnot (hc ▸ hcD), ?_⟩
    unfold productFKOk at hfk
    have hin : kv.2.category ∈ catIds s := by
      have h := List.all_eq_true.1 hfk kv hkv
      simpa using h
    unfold catIds at hin
    obtain ⟨kvc, hkvc, hfst⟩ := List.mem_map.1 hin
    simp only [catIds, deleteCategory, List.mem_map]
    refine ⟨kvc, ?_, hfst⟩
    rw [List.mem_filter]
    refine ⟨hkvc, ?_⟩
    simp only [Bool.not_eq_true', decide_eq_false_iff_not]
    rw [hfst]
    exact hnot


/-- Witness for C4: deleting category 3 of `sampleDB`, which product 10
references. -/
theorem category_delete_cascades_to_products_witness :
    productFKOk sampleDB = true ∧
    ((∀ kv ∈ sampleDB.products, kv.2.category = 3 →
        kv ∉ (deleteCategory 3 sampleDB).products) ∧
      (∀ kv ∈ (deleteCategory 3 sampleDB).products,
        kv ∈ sampleDB.products ∧ kv.2.category ≠ 3 ∧
        kv.2.category ∈ catIds (deleteCategory 3 sampleDB))) :=
  ⟨by decide, category_delete_cascades_to_products 3 sampleDB (by decide)⟩

/-! ### C10 -/

/-- C10: deleting a `Category` also deletes every descendant category — each
member of a duplicate-free `parent`-descent chain below it — and every
`Product` referencing such a descendant, because both `Category.parent` and
`Product.category` are `on_delete=CASCADE`. -/
theorem category_delete_cascades_subtree (c : Nat) (s : DB)
    (chain : List Nat) (hnd : chain.Nodup)
    (hch : chainOk s.categories c chain = true) :
    ∀ d ∈ chain,
      d ∉ catIds (deleteCategory c s) ∧
      ∀ kv ∈ s.products, kv.2.category = d →
        kv ∉ (deleteCategory c s).products := by
  intro d hd
  have hdD : d ∈ cascadeSet s.categories c :=
    mem_cascadeSet_of_chain hnd hch d hd
  constructor
  · intro hmem
    simp only [catIds, deleteCategory, List.mem_map] at hmem
    obtain ⟨kvc, hkvc, hfst⟩ := hmem
    have h2 := (List.mem_filter.1 hkvc).2
    simp only [Bool.not_eq_true', decide_eq_false_iff_not] at h2
    exact h2 (hfst ▸ hdD)
  · intro kv hkv hcat hmem
    simp only [deleteCategory, List.mem_filter, Bool.not_eq_true',
      decide_eq_false_iff_not] at hmem
    exact hmem.2 (hcat ▸ hdD)

/-- Witness for C10: deleting root category 1 of `sampleDB` removes the
descent chain `[2, 3]` and the product of leaf category 3. -/
theorem category_delete_cascades_subtree_witness :
    ([2, 3] : List Nat).Nodup ∧
    chainOk sampleDB.categories 1 [2, 3] = true ∧
    (∀ d ∈ ([2, 3] : List Nat),
      d ∉ catIds (deleteCategory 1 sampleDB) ∧
      ∀ kv ∈ sampleDB.products, kv.2.category = d →
        kv ∉ (deleteCategory 1 sampleDB).products) :=
  ⟨by decide, by decide,
    category_delete_cascades_subtree 1 sampleDB [2, 3] (by decide) (by decide)⟩
